import Mathlib

/-!
Verification of the web-loader-engine service against its specification.

The Rust sources are shallowly embedded: pure functions become Lean
functions, stateful services (circuit breaker, cache, browser pool)
become explicit state passing over `Nat`-valued instants, machine
integers become `Nat` (no arithmetic here ever overflows or goes
negative in the source), and fallible code returns `Except`.
-/

namespace WebLoader

/-- Error taxonomy of the service (src/error.rs). `IoError` carries a
message string standing in for the wrapped io error value. -/
inductive AppError where
  | Unauthorized
  | InvalidApiKey
  | InvalidUrl (msg : String)
  | BlockedUrl (msg : String)
  | Timeout (secs : Nat)
  | BrowserError (msg : String)
  | ScrapingError (msg : String)
  | ExtractionError (msg : String)
  | MarkdownError (msg : String)
  | ScreenshotError (msg : String)
  | RateLimitExceeded (domain : String)
  | CircuitBreakerOpen (domain : String)
  | TooManyDomains (count : Nat)
  | Internal (msg : String)
  | ConfigError (msg : String)
  | IoError (msg : String)
  deriving Repr, DecidableEq

/-- Test whether `p` is an initial segment of `l`. -/
def startsWithList : List Char → List Char → Bool
  | [], _ => true
  | _ :: _, [] => false
  | p :: ps, c :: cs => p == c && startsWithList ps cs

/-- Test whether `pat` occurs contiguously in `l`. -/
def containsList (pat : List Char) : List Char → Bool
  | [] => pat.isEmpty
  | c :: cs => startsWithList pat (c :: cs) || containsList pat cs

/-- Substring test: `strContains s pat` is Rust `s.contains(pat)`. -/
def strContains (s pat : String) : Bool :=
  containsList pat.toList s.toList

/-- Modelled from Rust `str::to_lowercase`, character by character; it
agrees with the Rust function on ASCII text (all classifier patterns and
all error messages produced by the source are ASCII). -/
def strToLower (s : String) : String :=
  String.mk (s.data.map Char.toLower)

/-- The connection-error patterns, verbatim from
`BrowserPool::is_connection_error_str` (src/services/browser.rs:369-393). -/
def connection_error_patterns : List String :=
  [ "AlreadyClosed"
  , "Ws(AlreadyClosed)"
  , "WebSocket"
  , "connection"
  , "Connection"
  , "ConnectionClosed"
  , "channel closed"
  , "Channel closed"
  , "browser closed"
  , "Browser closed"
  , "target closed"
  , "Target closed"
  , "session closed"
  , "Session closed"
  , "pipe"
  , "Pipe"
  , "disconnected"
  , "Disconnected"
  , "not connected"
  , "Not connected"
  , "may be dead"
  , "Timeout creating page"
  , "Timeout setting"
  ]

/-- Embeds `BrowserPool::is_connection_error_str` (src/services/browser.rs:368-399):
lowercase the message and test whether any pattern (lowercased) occurs in
it as a substring. -/
def is_connection_error_str (err_msg : String) : Bool :=
  let err_lower := strToLower err_msg
  connection_error_patterns.any (fun pattern => strContains err_lower (strToLower pattern))

/-- Embeds `BrowserPool::is_connection_error` (src/services/browser.rs:361-366):
only the `BrowserError` kind is classified; every other kind is `false`. -/
def is_connection_error : AppError → Bool
  | .BrowserError msg => is_connection_error_str msg
  | _ => false

/-- The classifier substrings exactly as the claim enumerates them
(one per case-insensitive equivalence class of the source list). -/
def claim_connection_patterns : List String :=
  [ "AlreadyClosed"
  , "Ws(AlreadyClosed)"
  , "WebSocket"
  , "connection"
  , "ConnectionClosed"
  , "channel closed"
  , "browser closed"
  , "target closed"
  , "session closed"
  , "pipe"
  , "disconnected"
  , "not connected"
  , "may be dead"
  , "Timeout creating page"
  , "Timeout setting"
  ]

/-- Rust `s.starts_with(pre)`. -/
def startsWithStr (s pre : String) : Bool :=
  startsWithList pre.toList s.toList

/-- Rust `s.ends_with(suf)`. -/
def endsWithStr (s suf : String) : Bool :=
  startsWithList suf.toList.reverse s.toList.reverse

/-- Rust `s.contains(c)` for a `char` needle. -/
def containsChar (s : String) (c : Char) : Bool :=
  s.toList.any (fun x => x == c)

/-- Split a character list at every occurrence of `sep`, keeping empty
pieces, like Rust `str::split(char)`. -/
def splitOnChar (sep : Char) : List Char → List (List Char)
  | [] => [[]]
  | c :: cs =>
      let r := splitOnChar sep cs
      if c == sep then [] :: r
      else
        match r with
        | [] => [[c]]
        | h :: t => (c :: h) :: t

/-- Split a character list at the first occurrence of `pat`, returning the
pieces before and after it. -/
def splitOnceStr (pat : List Char) : List Char → Option (List Char × List Char)
  | [] => if pat.isEmpty then some ([], []) else none
  | c :: cs =>
      if startsWithList pat (c :: cs) then some ([], (c :: cs).drop pat.length)
      else
        match splitOnceStr pat cs with
        | some (a, b) => some (c :: a, b)
        | none => none

/-- The hard-coded blocklist built in `SecurityService::new`
(src/services/security.rs:33-38). -/
def blocked_domains : List String :=
  ["localhost", "127.0.0.1", "0.0.0.0", "::1"]

/-- Embeds `SecurityService::is_blocked_host` (src/services/security.rs:81-86):
lowercase the host and require either exact equality with a blocked entry
or the host ending in `"." ++ entry`. -/
def is_blocked_host (host : String) : Bool :=
  let host_lower := strToLower host
  blocked_domains.any (fun blocked =>
    host_lower == blocked || endsWithStr host_lower ("." ++ blocked))

/-- One decimal IPv4 octet as accepted by Rust `Ipv4Addr::from_str`:
one to three digits, no leading zero, value at most 255. Modelled from
the Rust standard library parser, an external dependency of
`is_localhost_ip`. -/
def parseIPv4Octet (cs : List Char) : Option Nat :=
  if cs ≠ [] ∧ cs.length ≤ 3 ∧ cs.all Char.isDigit ∧ (cs.length = 1 ∨ cs.head? ≠ some '0') then
    let v := cs.foldl (fun acc c => acc * 10 + (c.toNat - 48)) 0
    if v ≤ 255 then some v else none
  else none

/-- Rust `Ipv4Addr::from_str` (modelled): exactly four octets joined by
dots. -/
def parseIPv4 (s : String) : Option (Nat × Nat × Nat × Nat) :=
  match (splitOnChar '.' s.toList).map parseIPv4Octet with
  | [some a, some b, some c, some d] => some (a, b, c, d)
  | _ => none

def isHexDigitChar (c : Char) : Bool :=
  c.isDigit || ('a' ≤ c && c ≤ 'f') || ('A' ≤ c && c ≤ 'F')

def hexDigitVal (c : Char) : Nat :=
  if c.isDigit then c.toNat - 48
  else if 'a' ≤ c && c ≤ 'f' then c.toNat - 87
  else c.toNat - 55

/-- One 16-bit IPv6 group: one to four hex digits. -/
def parseHextet (cs : List Char) : Option Nat :=
  if cs ≠ [] ∧ cs.length ≤ 4 ∧ cs.all isHexDigitChar then
    some (cs.foldl (fun acc c => acc * 16 + hexDigitVal c) 0)
  else none

/-- A colon-separated run of IPv6 groups in which only the final group may
be an embedded dotted IPv4 address (contributing two 16-bit groups). -/
def parseGroupsTail : List (List Char) → Option (List Nat)
  | [] => some []
  | [p] =>
      if p.any (fun c => c == '.') then
        (parseIPv4 (String.mk p)).map (fun q => [q.1 * 256 + q.2.1, q.2.2.1 * 256 + q.2.2.2])
      else (parseHextet p).map (fun h => [h])
  | p :: rest =>
      match parseHextet p, parseGroupsTail rest with
      | some h, some t => some (h :: t)
      | _, _ => none

/-- A colon-separated run of plain IPv6 groups (no embedded IPv4). -/
def parseHextetsOnly : List (List Char) → Option (List Nat)
  | [] => some []
  | p :: rest =>
      match parseHextet p, parseHextetsOnly rest with
      | some h, some t => some (h :: t)
      | _, _ => none

/-- Rust `Ipv6Addr::from_str` (modelled): eight 16-bit groups, with at
most one `::` run standing for the missing zero groups, and an optional
embedded IPv4 tail. Bracketed text such as `"[::1]"` is NOT accepted: a
`[` is neither a hex digit nor a separator. -/
def parseIPv6 (s : String) : Option (List Nat) :=
  let cs := s.toList
  match splitOnceStr "::".toList cs with
  | none =>
      match parseGroupsTail (splitOnChar ':' cs) with
      | some g => if g.length = 8 then some g else none
      | none => none
  | some (l, r) =>
      if (splitOnceStr "::".toList r).isSome then none
      else
        let lg := if l.isEmpty then some [] else parseHextetsOnly (splitOnChar ':' l)
        let rg := if r.isEmpty then some [] else parseGroupsTail (splitOnChar ':' r)
        match lg, rg with
        | some a, some b =>
            if a.length + b.length ≤ 7 then
              some (a ++ List.replicate (8 - a.length - b.length) 0 ++ b)
            else none
        | _, _ => none

/-- An IP address as produced by Rust `IpAddr::from_str` (modelled):
IPv4 dotted-quad first, else IPv6. -/
inductive IpAddr where
  | V4 (a b c d : Nat)
  | V6 (groups : List Nat)
  deriving Repr, DecidableEq

def parseIpAddr (s : String) : Option IpAddr :=
  match parseIPv4 s with
  | some (a, b, c, d) => some (.V4 a b c d)
  | none => (parseIPv6 s).map .V6

/-- The textual fallback patterns of `is_localhost_ip`
(src/services/security.rs:103). -/
def localhost_patterns : List String :=
  ["127.", "192.168.", "10.", "172.16.", "169.254."]

/-- Embeds `SecurityService::is_localhost_ip` (src/services/security.rs:88-105):
if the host parses as an IP address, block IPv4 loopback, RFC1918
private, link-local, or first octet 127, and IPv6 loopback; otherwise
fall back to the textual patterns. -/
def is_localhost_ip (host : String) : Bool :=
  match parseIpAddr host with
  | some (.V4 a b _ _) =>
      (a == 127)
      || (a == 10 || (a == 172 && decide (16 ≤ b) && decide (b ≤ 31))
          || (a == 192 && b == 168))
      || (a == 169 && b == 254)
      || (a == 127)
  | some (.V6 g) => g == [0, 0, 0, 0, 0, 0, 0, 1]
  | none => localhost_patterns.any (fun p => startsWithStr host p)

/-- The parse result of the url crate that `validate_url` consumes:
the scheme and `host_str()`. -/
structure ParsedUrl where
  scheme : String
  host_str : Option String
  deriving Repr, DecidableEq

/-- Modelled from the url crate (an external dependency) for hierarchical
`scheme://...` URLs: the scheme is the lowercased text before `"://"`;
`host_str()` is the authority with userinfo and port stripped, domains
lowercased, and — crucially — IPv6 hosts rendered BETWEEN `[` and `]`
brackets, e.g. `"[::1]"`. -/
def parseUrlModel (s : String) : Option ParsedUrl :=
  match splitOnceStr "://".toList s.toList with
  | none => none
  | some (sch, rest) =>
      if sch.isEmpty then none
      else
        let authority := rest.takeWhile (fun c => !(c == '/' || c == '?' || c == '#'))
        let afterUser :=
          if authority.any (fun c => c == '@') then
            (authority.reverse.takeWhile (fun c => !(c == '@'))).reverse
          else authority
        let host? :=
          if afterUser.head? = some '[' then
            match splitOnceStr [']'] afterUser with
            | some (a, _) => some (a ++ [']'])
            | none => none
          else some (afterUser.takeWhile (fun c => !(c == ':')))
        match host? with
        | some [] => none
        | some h => some ⟨String.mk (sch.map Char.toLower), some (String.mk (h.map Char.toLower))⟩
        | none => none

/-- Embeds `SecurityService::validate_url` (src/services/security.rs:42-79):
parse, require an http or https scheme, require a host, reject blocked
hosts and localhost and internal IPs, and require a dot in the host
unless it is itself a blocklist entry. -/
def validate_url (s : String) : Except AppError ParsedUrl :=
  match parseUrlModel s with
  | none => .error (.InvalidUrl "Invalid URL format")
  | some url =>
      if !(["http", "https"].contains url.scheme) then
        .error (.InvalidUrl ("Invalid scheme: " ++ url.scheme ++ ". Only http and https are allowed"))
      else
        match url.host_str with
        | some host =>
            if is_blocked_host host then
              .error (.BlockedUrl ("Access to " ++ host ++ " is not allowed"))
            else if is_localhost_ip host then
              .error (.BlockedUrl "Access to localhost/internal IPs is not allowed")
            else if !(containsChar host '.') && !(blocked_domains.contains host) then
              .error (.InvalidUrl "URL must have a valid TLD")
            else .ok url
        | none => .error (.InvalidUrl "URL must have a host")

/-- Circuit-breaker entry for one domain (src/services/security.rs:9-13).
`Instant`s are modelled as `Nat` seconds. -/
structure CircuitBreakerState where
  failures : Nat
  last_failure : Nat
  open_until : Option Nat
  deriving Repr, DecidableEq

/-- The `circuit_breakers` DashMap, modelled as a lookup function. -/
def CircuitBreakerMap : Type := String → Option CircuitBreakerState

/-- Embeds `SecurityService::record_failure` (src/services/security.rs:119-134):
fetch or lazily create the entry, bump `failures`, stamp `last_failure`,
and once `failures ≥ 5` set `open_until = now + 60`. -/
def record_failure (m : CircuitBreakerMap) (domain : String) (now : Nat) : CircuitBreakerMap :=
  let entry0 := (m domain).getD ⟨0, now, none⟩
  let entry1 := { entry0 with failures := entry0.failures + 1, last_failure := now }
  let entry2 := if 5 ≤ entry1.failures then { entry1 with open_until := some (now + 60) } else entry1
  fun d => if d = domain then some entry2 else m d

/-- Embeds `SecurityService::record_success` (src/services/security.rs:136-141):
if an entry exists, zero `failures` and clear `open_until`. -/
def record_success (m : CircuitBreakerMap) (domain : String) : CircuitBreakerMap :=
  fun d =>
    if d = domain then
      match m domain with
      | some e => some { e with failures := 0, open_until := none }
      | none => none
    else m d

/-- Embeds `SecurityService::check_circuit_breaker` (src/services/security.rs:107-117):
fail with `CircuitBreakerOpen` exactly when the entry has `open_until`
set and `now` is still before it. -/
def check_circuit_breaker (m : CircuitBreakerMap) (domain : String) (now : Nat) :
    Except AppError Unit :=
  match m domain with
  | some st =>
      match st.open_until with
      | some t => if now < t then .error (.CircuitBreakerOpen domain) else .ok ()
      | none => .ok ()
  | none => .ok ()

/-- A run of consecutive `record_failure` calls at the given instants. -/
def record_failures (m : CircuitBreakerMap) (domain : String) (ts : List Nat) :
    CircuitBreakerMap :=
  ts.foldl (fun mm t => record_failure mm domain t) m

/-- Embeds `ImageInfo` (src/models/response.rs). -/
structure ImageInfo where
  src : String
  alt : Option String
  width : Option Nat
  height : Option Nat
  deriving Repr, DecidableEq

/-- Embeds `LinkInfo` (src/models/response.rs). -/
structure LinkInfo where
  href : String
  text : Option String
  deriving Repr, DecidableEq

/-- Embeds `ResponseMetadata` (src/models/response.rs). -/
structure ResponseMetadata where
  processing_time_ms : Nat
  cached : Bool
  deriving Repr, DecidableEq

/-- Embeds `LoadResponse` (src/models/response.rs). -/
structure LoadResponse where
  url : String
  title : Option String
  content : String
  published_time : Option String
  images : Option (List ImageInfo)
  links : Option (List LinkInfo)
  screenshot_url : Option String
  metadata : ResponseMetadata
  deriving Repr, DecidableEq

/-- Embeds `ResponseFormat` (src/models/request.rs). -/
inductive ResponseFormat where
  | Default
  | Markdown
  | Html
  | Text
  | Screenshot
  | Pageshot
  deriving Repr, DecidableEq

/-- The derived Rust `Debug` rendering of a `ResponseFormat`, as used in
the `"{}:{:?}"` cache-key format string of `load_handler`. -/
def ResponseFormat.debugStr : ResponseFormat → String
  | .Default => "Default"
  | .Markdown => "Markdown"
  | .Html => "Html"
  | .Text => "Text"
  | .Screenshot => "Screenshot"
  | .Pageshot => "Pageshot"

/-- Embeds `CrawlerOptions` (src/models/request.rs). -/
structure CrawlerOptions where
  url : String
  respond_with : ResponseFormat
  wait_for_selector : Option String
  target_selector : Option String
  remove_selector : Option String
  timeout : Option Nat
  cookies : Option String
  proxy_url : Option String
  user_agent : Option String
  with_iframe : Bool
  with_shadow_dom : Bool
  no_cache : Bool
  cache_tolerance : Option Nat
  with_images_summary : Bool
  with_links_summary : Bool
  with_generated_alt : Bool
  keep_img_data_url : Bool

/-- Embeds `CacheEntry` (src/services/cache.rs:6-10); `created_at` is a `Nat`
instant in seconds, `ttl` a duration in seconds. -/
structure CacheEntry where
  response : LoadResponse
  created_at : Nat
  ttl : Nat
  deriving Repr, DecidableEq

/-- Embeds `CacheService` (src/services/cache.rs:12-15): the DashMap is modelled
as a lookup function. -/
structure CacheService where
  cache : String → Option CacheEntry
  default_ttl : Nat

/-- Embeds `CacheService::get_with_tolerance` (src/services/cache.rs:42-56): hit
iff the entry's age is strictly below `tolerance_secs` (the entry's own
`ttl` when no tolerance was supplied); a hit returns a clone of the
stored response with `metadata.cached := true`, and — unlike `get` — the
stored map is not modified on any path (this function only reads). -/
def CacheService.get_with_tolerance (svc : CacheService) (key : String)
    (tolerance_secs : Option Nat) (now : Nat) : Option LoadResponse :=
  match svc.cache key with
  | some entry =>
      let max_age := tolerance_secs.getD entry.ttl
      if now - entry.created_at < max_age then
        some { entry.response with metadata := { entry.response.metadata with cached := true } }
      else none
  | none => none

/-- Embeds `CacheService::set` (src/services/cache.rs:58-70): insert with
`ttl = ttl_secs ?? default_ttl` and `created_at = now`. -/
def CacheService.set (svc : CacheService) (key : String) (response : LoadResponse)
    (ttl_secs : Option Nat) (now : Nat) : CacheService :=
  { svc with
    cache := fun k =>
      if k = key then some ⟨response, now, ttl_secs.getD svc.default_ttl⟩ else svc.cache k }

/-- The cache key computed by `load_handler`
(src/routes/loader.rs:40,52): `format!("{}:{:?}", url, respond_with)`. -/
def cache_key (options : CrawlerOptions) : String :=
  options.url ++ ":" ++ options.respond_with.debugStr

/-- The cache-store step of `load_handler` (src/routes/loader.rs:51-54):
after a successful pipeline run, when `no_cache` is false, store the
response under the fingerprint with `options.cache_tolerance` as the
`ttl_secs` argument of `set`. -/
def load_handler_store (svc : CacheService) (options : CrawlerOptions)
    (response : LoadResponse) (now : Nat) : CacheService :=
  if !options.no_cache then
    svc.set (cache_key options) response options.cache_tolerance now
  else svc

/-- A concrete response used by the cache witnesses. -/
def c6WitnessResp : LoadResponse :=
  ⟨"https://example.com", none, "hello", none, none, none, none, ⟨5, false⟩⟩

/-- A concrete one-entry cache used by the C6 witness. -/
def c6WitnessSvc : CacheService :=
  ⟨fun k => if k = "https://example.com:Markdown" then some ⟨c6WitnessResp, 100, 50⟩ else none,
    3600⟩

/-- Embeds `MAX_REQUEST_RETRIES` (src/routes/loader.rs:19). -/
def MAX_REQUEST_RETRIES : Nat := 2

/-- Observable events of one `process_url_with_retry` run: the 500 ms
inter-attempt sleep, the start of attempt `n`, and
`browser_pool.invalidate_browser()`. -/
inductive RetryEvent where
  | sleep (ms : Nat)
  | attempt (n : Nat)
  | invalidate
  deriving Repr, DecidableEq

def isAttemptEvent : RetryEvent → Bool
  | .attempt _ => true
  | _ => false

def isSleepEvent : RetryEvent → Bool
  | .sleep _ => true
  | _ => false

/-- The loop body of `process_url_with_retry` (src/routes/loader.rs:127-164)
over the remaining attempt indices. `f` is the oracle giving the outcome
of `process_url` on each attempt; the trace records sleeps, attempt
starts and pool invalidations in order. -/
def retryGo (f : Nat → Except AppError α) :
    List Nat → Option AppError → List RetryEvent → Except AppError α × List RetryEvent
  | [], last, tr =>
      (.error (last.getD (.BrowserError "Failed to process URL after max retries")), tr)
  | a :: rest, _last, tr =>
      let tr1 := if 0 < a then tr ++ [.sleep 500] else tr
      let tr2 := tr1 ++ [.attempt a]
      match f a with
      | .ok r => (.ok r, tr2)
      | .error e =>
          if is_connection_error e then retryGo f rest (some e) (tr2 ++ [.invalidate])
          else (.error e, tr2)

/-- Embeds `process_url_with_retry` (src/routes/loader.rs:127-164): attempts
`0..=MAX_REQUEST_RETRIES`, sleeping 500 ms before every attempt after
the first, invalidating the pool and retrying on connection-classified
errors, returning any other error immediately, and returning the last
connection error once attempts are exhausted. -/
def process_url_with_retry (f : Nat → Except AppError α) :
    Except AppError α × List RetryEvent :=
  retryGo f (List.range (MAX_REQUEST_RETRIES + 1)) none []

/-- State of the browser-pool semaphore discipline: free permits, the
callers currently inside `get_page` (holding the permit), and the
callers currently holding a returned `Page`. -/
structure PoolState where
  available : Nat
  inCall : List Nat
  holding : List Nat
  deriving Repr, DecidableEq

/-- Events of the semaphore discipline as IMPLEMENTED by `get_page`
(src/services/browser.rs:171-214): `acquire c` is the
`semaphore.acquire()` at the top of `get_page` (enabled only when a
permit is free — otherwise the caller suspends); `getPageReturn c` is
`get_page` returning `Ok(page)`, at which point the local `_permit`
binding is dropped and the permit is RELEASED even though the caller
still holds the page; `dropPage c` is the caller dropping the page,
which touches no semaphore state. -/
inductive PoolEvent where
  | acquire (c : Nat)
  | getPageReturn (c : Nat)
  | dropPage (c : Nat)
  deriving Repr, DecidableEq

/-- One step of the implemented semantics; `none` means the event is not
enabled (the caller would suspend / the event cannot occur). -/
def poolStep (s : PoolState) : PoolEvent → Option PoolState
  | .acquire c =>
      if 0 < s.available ∧ c ∉ s.inCall ∧ c ∉ s.holding then
        some { s with available := s.available - 1, inCall := c :: s.inCall }
      else none
  | .getPageReturn c =>
      if c ∈ s.inCall then
        some { available := s.available + 1, inCall := s.inCall.erase c,
               holding := c :: s.holding }
      else none
  | .dropPage c =>
      if c ∈ s.holding then some { s with holding := s.holding.erase c } else none

/-- Run a sequence of pool events from a state; `none` if any event is
not enabled at its point in the sequence. -/
def poolRun (s : PoolState) : List PoolEvent → Option PoolState
  | [] => some s
  | e :: es =>
      match poolStep s e with
      | some s2 => poolRun s2 es
      | none => none

/-- Rust `char::is_whitespace`, restricted to its ASCII members (the
inputs of the claims are ASCII). -/
def isRustWhitespace (c : Char) : Bool :=
  c == ' ' || c == '\t' || c == '\n' || c == '\r' || c == '\u000B' || c == '\u000C'

/-- Rust `str::trim` (modelled): strip whitespace from both ends. -/
def rustTrim (s : String) : String :=
  String.mk (((s.toList.dropWhile isRustWhitespace).reverse.dropWhile isRustWhitespace).reverse)

/-- One `<a href>` element as seen by `extract_links`: the `href`
attribute and the concatenated text nodes. -/
structure Anchor where
  href : String
  text : String
  deriving Repr, DecidableEq

/-- Embeds `LinkData` (src/models/snapshot.rs). -/
structure LinkData where
  href : String
  text : Option String
  is_internal : Bool
  deriving Repr, DecidableEq

/-- The loop body of `ScraperService::extract_links`
(src/services/scraper.rs:209-224): trim the text (empty becomes `None`),
and mark the link internal when the href starts with `/` or — when the
base URL parses to a host — when the href CONTAINS that host as a
substring (`href.contains(domain)`). -/
def link_of_anchor (base_domain : Option String) (a : Anchor) : LinkData :=
  let text := rustTrim a.text
  let is_internal :=
    match base_domain with
    | some domain => startsWithStr a.href "/" || strContains a.href domain
    | none => startsWithStr a.href "/"
  ⟨a.href, if text = "" then none else some text, is_internal⟩

/-- Embeds `ScraperService::extract_links` (src/services/scraper.rs:202-230)
over the anchor list of the parsed document. -/
def extract_links (anchors : List Anchor) (base_url : String) : List LinkData :=
  let base_domain := (parseUrlModel base_url).bind (fun u => u.host_str)
  anchors.map (link_of_anchor base_domain)

/-- Leftmost non-overlapping replace-all driver, the semantics of
`Regex::replace_all`: at each position try the matcher; on a match emit
its replacement (not rescanned) and continue after the consumed text,
otherwise emit one character and move on. Every matcher below consumes
at least one character, so a fuel of the input length suffices. -/
def replaceScan (matcher : List Char → Option (List Char × List Char)) :
    Nat → List Char → List Char
  | 0, l => l
  | _ + 1, [] => []
  | fuel + 1, c :: cs =>
      match matcher (c :: cs) with
      | some (rep, rest) => rep ++ replaceScan matcher fuel rest
      | none => c :: replaceScan matcher fuel cs

def replaceAllWith (matcher : List Char → Option (List Char × List Char))
    (l : List Char) : List Char :=
  replaceScan matcher l.length l

/-- Matcher for `BROKEN_LINKS` = `\[([^\]]*)\]\s+\(([^)]*)\)`, replaced
by `[$1]($2)` (src/services/markdown.rs:12,71). The character classes
exclude their closing delimiter and `\s+\(` is followed by a mandatory
`(`, so the greedy regex is equivalent to this deterministic scan. -/
def tryBrokenLink : List Char → Option (List Char × List Char)
  | '[' :: rest =>
      let g1 := rest.takeWhile (fun c => !(c == ']'))
      match rest.drop g1.length with
      | ']' :: r2 =>
          let ws := r2.takeWhile isRustWhitespace
          if ws.isEmpty then none
          else
            match r2.drop ws.length with
            | '(' :: r3 =>
                let g2 := r3.takeWhile (fun c => !(c == ')'))
                match r3.drop g2.length with
                | ')' :: r4 => some ('[' :: g1 ++ ']' :: '(' :: g2 ++ [')'], r4)
                | _ => none
            | _ => none
      | _ => none
  | _ => none

/-- Matcher for `EMPTY_LINKS` = `\[]\([^)]*\)`, replaced by the empty
string (src/services/markdown.rs:11,73). -/
def tryEmptyLink : List Char → Option (List Char × List Char)
  | '[' :: ']' :: '(' :: r =>
      let g := r.takeWhile (fun c => !(c == ')'))
      match r.drop g.length with
      | ')' :: r2 => some ([], r2)
      | _ => none
  | _ => none

/-- Matcher for `MULTIPLE_NEWLINES` = `\n{3,}`, replaced by two newlines
(src/services/markdown.rs:8,81): the greedy match is the whole maximal
newline run. -/
def tryMultiNewline (l : List Char) : Option (List Char × List Char) :=
  let nl := l.takeWhile (fun c => c == '\n')
  if 3 ≤ nl.length then some (['\n', '\n'], l.drop nl.length) else none

/-- Matcher for `TRAILING_SPACES` = `[ \t]+\n`, replaced by a newline
(src/services/markdown.rs:9,83). -/
def trySpacesNewline (l : List Char) : Option (List Char × List Char) :=
  let sp := l.takeWhile (fun c => c == ' ' || c == '\t')
  if sp.isEmpty then none
  else
    match l.drop sp.length with
    | '\n' :: r => some (['\n'], r)
    | _ => none

/-- Rust `str::lines` (modelled): split at `\n`, drop a final empty
piece produced by a trailing newline, strip a trailing `\r` from each
line; the empty string has no lines. -/
def rustLines (l : List Char) : List (List Char) :=
  if l.isEmpty then []
  else
    let parts := splitOnChar '\n' l
    let parts := if parts.getLast? = some [] then parts.dropLast else parts
    parts.map (fun p => if p.getLast? = some '\r' then p.dropLast else p)

/-- Per-line test for `EMPTY_HEADERS` = `^#{1,6}\s*$` applied per line
(src/services/markdown.rs:13,75-79): one to six `#` followed only by
whitespace. -/
def isEmptyHeaderLine (l : List Char) : Bool :=
  let hashes := l.takeWhile (fun c => c == '#')
  decide (1 ≤ hashes.length) && decide (hashes.length ≤ 6)
    && (l.drop hashes.length).all isRustWhitespace

/-- The `is_list_item` test of `fix_list_formatting`
(src/services/markdown.rs:98-103): after `trim_start`, the line starts
with a bullet marker, or (by Rust `||`/`&&` precedence) starts with an
ASCII digit whose following character is `.` or `)`. -/
def is_list_item (line : List Char) : Bool :=
  let trimmed := line.dropWhile isRustWhitespace
  startsWithList "- ".toList trimmed
    || startsWithList "* ".toList trimmed
    || startsWithList "+ ".toList trimmed
    || (match trimmed with
        | c0 :: c1 :: _ => c0.isDigit && (c1 == '.' || c1 == ')')
        | _ => false)

/-- The line loop of `fix_list_formatting`
(src/services/markdown.rs:92-117): insert a blank line before a list
item that follows a non-empty non-list line. -/
def fixListGo : List (List Char) → Bool → List (List Char) → List (List Char)
  | [], _, acc => acc
  | line :: rest, prev_was_list, acc =>
      let isItem := is_list_item line
      let acc2 :=
        if isItem && !prev_was_list && !acc.isEmpty then
          match acc.getLast? with
          | some last => if !last.isEmpty then acc ++ [[]] else acc
          | none => acc
        else acc
      fixListGo rest isItem (acc2 ++ [line])

def fix_list_formatting (md : List Char) : List Char :=
  List.intercalate ['\n'] (fixListGo (rustLines md) false [])

/-- Matcher for the code-fence pattern ```` ```\s*\n ````, replaced by
the fence plus a single newline (src/services/markdown.rs:122-123). The
greedy `\s*` backtracks to just before the LAST newline of the maximal
whitespace run, so the match consumes the run through its last `\n`. -/
def tryCodeFence : List Char → Option (List Char × List Char)
  | '`' :: '`' :: '`' :: r =>
      let ws := r.takeWhile isRustWhitespace
      let keep := ws.reverse.dropWhile (fun c => !(c == '\n'))
      if keep.isEmpty then none
      else some ('`' :: '`' :: '`' :: ['\n'], r.drop keep.length)
  | _ => none

/-- Matcher for the broken-inline-code pattern `` `\s+` ``, replaced by
a backtick, one space, backtick (src/services/markdown.rs:125-126). -/
def tryInlineCode : List Char → Option (List Char × List Char)
  | '`' :: r =>
      let ws := r.takeWhile isRustWhitespace
      if ws.isEmpty then none
      else
        match r.drop ws.length with
        | '`' :: r2 => some ('`' :: ' ' :: ['`'], r2)
        | _ => none
  | _ => none

/-- Embeds `MarkdownService::fix_code_blocks` (src/services/markdown.rs:119-129). -/
def fix_code_blocks (md : List Char) : List Char :=
  replaceAllWith tryInlineCode (replaceAllWith tryCodeFence md)

/-- Strip whitespace from both ends of a character list (Rust
`str::trim`). -/
def trimChars (l : List Char) : List Char :=
  ((l.dropWhile isRustWhitespace).reverse.dropWhile isRustWhitespace).reverse

/-- Embeds `MarkdownService::tidy_markdown` (src/services/markdown.rs:68-90):
fix broken links, drop empty links, drop empty-header lines, collapse
three or more newlines to two, strip trailing spaces before newlines,
fix list formatting, fix code blocks, trim. -/
def tidy_markdown (markdown : List Char) : List Char :=
  let r1 := replaceAllWith tryBrokenLink markdown
  let r2 := replaceAllWith tryEmptyLink r1
  let r3 := List.intercalate ['\n']
    ((rustLines r2).filter (fun line => !(isEmptyHeaderLine line)))
  let r4 := replaceAllWith tryMultiNewline r3
  let r5 := replaceAllWith trySpacesNewline r4
  let r6 := fix_list_formatting r5
  let r7 := fix_code_blocks r6
  trimChars r7

/-- Wrapper running `tidy_markdown` on `String`s. -/
def tidyStr (s : String) : String :=
  String.mk (tidy_markdown s.toList)

/-- Modelled from Rust `char::is_alphanumeric`, which is true on
Unicode Alphabetic characters and on the numeric general categories
Nd, Nl, No — NOT just ASCII. The model lists the full table for the
Basic Latin and Latin-1 Supplement blocks (U+0000-U+00FF), the regime
in which every theorem below evaluates it: ASCII alphanumerics; the
Latin-1 letters U+00AA, U+00B5, U+00BA, U+00C0-U+00D6, U+00D8-U+00F6,
U+00F8-U+00FF; and the Latin-1 numerics U+00B2, U+00B3, U+00B9,
U+00BC-U+00BE. In particular it keeps non-ASCII letters such as
U+00E9 ("e" with acute), which the claim's set `[A-Za-z0-9_-]` drops. -/
def rustIsAlphanumeric (c : Char) : Bool :=
  c.isAlphanum
    || c.toNat = 0xAA || c.toNat = 0xB5 || c.toNat = 0xBA
    || (0xC0 ≤ c.toNat && c.toNat ≤ 0xD6)
    || (0xD8 ≤ c.toNat && c.toNat ≤ 0xF6)
    || (0xF8 ≤ c.toNat && c.toNat ≤ 0xFF)
    || c.toNat = 0xB2 || c.toNat = 0xB3 || c.toNat = 0xB9
    || (0xBC ≤ c.toNat && c.toNat ≤ 0xBE)

/-- Embeds `ScreenshotService::generate_filename`
(src/services/screenshot.rs:45-54) with the random v4 UUID supplied as
an argument: filter the URL's characters to alphanumerics, `-`, `_`,
keep the first 50, and append `_{uuid}.png`. -/
def generate_filename (uuid url : String) : String :=
  let sanitized_url := String.mk
    ((url.toList.filter (fun c => rustIsAlphanumeric c || c == '-' || c == '_')).take 50)
  sanitized_url ++ "_" ++ uuid ++ ".png"

/-- The URL path returned by `ScreenshotService::save_screenshot`
(src/services/screenshot.rs:30-43): `"/screenshots/" ++ filename`. -/
def save_screenshot_path (uuid url : String) : String :=
  "/screenshots/" ++ generate_filename uuid url

/-- The claim's character set `[A-Za-z0-9_-]`: `Char.isUpper`,
`Char.isLower` and `Char.isDigit` are exactly the ranges A-Z, a-z, 0-9. -/
def claimKeepChar (c : Char) : Bool :=
  c.isUpper || c.isLower || c.isDigit || c == '-' || c == '_'

/-- The amended claim's character set, following its words: a Unicode
alphanumeric (Rust `char::is_alphanumeric`), `-`, or `_`. -/
def amendedKeepChar (c : Char) : Bool :=
  rustIsAlphanumeric c || c == '-' || c == '_'

theorem bor_self_left (a b : Bool) : (a || (a || b)) = (a || b) := by
  cases a <;> rfl

theorem patterns_agree (m : String) :
    connection_error_patterns.any (fun pattern => strContains m (strToLower pattern))
    = claim_connection_patterns.any (fun pattern => strContains m (strToLower pattern)) := by
  have h1 : connection_error_patterns.map strToLower =
      [ "alreadyclosed", "ws(alreadyclosed)", "websocket", "connection"
      , "connection", "connectionclosed", "channel closed", "channel closed"
      , "browser closed", "browser closed", "target closed", "target closed"
      , "session closed", "session closed", "pipe", "pipe", "disconnected"
      , "disconnected", "not connected", "not connected", "may be dead"
      , "timeout creating page", "timeout setting" ] := by decide
  have h2 : claim_connection_patterns.map strToLower =
      [ "alreadyclosed", "ws(alreadyclosed)", "websocket", "connection"
      , "connectionclosed", "channel closed", "browser closed", "target closed"
      , "session closed", "pipe", "disconnected", "not connected", "may be dead"
      , "timeout creating page", "timeout setting" ] := by decide
  have e1 : connection_error_patterns.any (fun pattern => strContains m (strToLower pattern))
      = (connection_error_patterns.map strToLower).any (fun q => strContains m q) := by
    rw [List.any_map]; rfl
  have e2 : claim_connection_patterns.any (fun pattern => strContains m (strToLower pattern))
      = (claim_connection_patterns.map strToLower).any (fun q => strContains m q) := by
    rw [List.any_map]; rfl
  rw [e1, e2, h1, h2]
  simp only [List.any_cons, List.any_nil, Bool.or_false, bor_self_left]

/-- Applying `record_failure` on an existing entry that stays below the threshold:
failures bumped, `open_until` untouched. -/
theorem record_failure_apply_below (m : CircuitBreakerMap) (d : String) (now : Nat)
    (e : CircuitBreakerState) (he : m d = some e) (hlt : ¬ 5 ≤ e.failures + 1) :
    record_failure m d now d = some ⟨e.failures + 1, now, e.open_until⟩ := by
  simp [record_failure, he, hlt]

/-- Applying `record_failure` on an existing entry that reaches the threshold:
failures bumped and `open_until` set to `now + 60`. -/
theorem record_failure_apply_fifth (m : CircuitBreakerMap) (d : String) (now : Nat)
    (e : CircuitBreakerState) (he : m d = some e) (hge : 5 ≤ e.failures + 1) :
    record_failure m d now d = some ⟨e.failures + 1, now, some (now + 60)⟩ := by
  simp [record_failure, he, hge]

/-- C5: starting from a domain with no circuit-breaker entry, five
consecutive `record_failure` calls (at instants t1..t5, with no
intervening success) leave the entry with `failures = 5` and
`open_until = t5 + 60`; `check_circuit_breaker` fails with
`CircuitBreakerOpen` at every instant strictly before `t5 + 60` and
succeeds from `t5 + 60` on; and a single `record_success` resets
`failures` to 0 and clears `open_until`. -/
theorem c5_circuit_breaker_five_failures (m : CircuitBreakerMap) (d : String)
    (t1 t2 t3 t4 t5 : Nat) (hfresh : m d = none) :
    record_failures m d [t1, t2, t3, t4, t5] d = some ⟨5, t5, some (t5 + 60)⟩
    ∧ (∀ now, now < t5 + 60 →
        check_circuit_breaker (record_failures m d [t1, t2, t3, t4, t5]) d now
          = .error (.CircuitBreakerOpen d))
    ∧ (∀ now, t5 + 60 ≤ now →
        check_circuit_breaker (record_failures m d [t1, t2, t3, t4, t5]) d now = .ok ())
    ∧ record_success (record_failures m d [t1, t2, t3, t4, t5]) d d = some ⟨0, t5, none⟩ := by
  have h1 : record_failure m d t1 d = some ⟨1, t1, none⟩ := by
    simp [record_failure, hfresh]
  have h2 : record_failure (record_failure m d t1) d t2 d = some ⟨2, t2, none⟩ :=
    record_failure_apply_below _ _ _ ⟨1, t1, none⟩ h1 (by simp)
  have h3 : record_failure (record_failure (record_failure m d t1) d t2) d t3 d
      = some ⟨3, t3, none⟩ :=
    record_failure_apply_below _ _ _ ⟨2, t2, none⟩ h2 (by simp)
  have h4 : record_failure (record_failure (record_failure (record_failure m d t1) d t2) d t3)
      d t4 d = some ⟨4, t4, none⟩ :=
    record_failure_apply_below _ _ _ ⟨3, t3, none⟩ h3 (by simp)
  have h5' : record_failure (record_failure (record_failure (record_failure
      (record_failure m d t1) d t2) d t3) d t4) d t5 d = some ⟨5, t5, some (t5 + 60)⟩ :=
    record_failure_apply_fifth _ _ _ ⟨4, t4, none⟩ h4 (by simp)
  have h5 : record_failures m d [t1, t2, t3, t4, t5] d = some ⟨5, t5, some (t5 + 60)⟩ := by
    simpa [record_failures, List.foldl] using h5'
  refine ⟨h5, ?_, ?_, ?_⟩
  · intro now hnow
    simp [check_circuit_breaker, h5, hnow]
  · intro now hnow
    simp [check_circuit_breaker, h5, Nat.not_lt.mpr hnow]
  · simp [record_success, h5]

/-- Witness for C5 at concrete inputs: the empty map, domain
"example.com", failures at instants 10,20,30,40,50; the breaker is open
at instant 60 and closed again at instant 110. -/
theorem c5_circuit_breaker_five_failures_witness :
    check_circuit_breaker
        (record_failures (fun _ => none) "example.com" [10, 20, 30, 40, 50]) "example.com" 60
      = .error (.CircuitBreakerOpen "example.com")
    ∧ check_circuit_breaker
        (record_failures (fun _ => none) "example.com" [10, 20, 30, 40, 50]) "example.com" 110
      = .ok ()
    ∧ record_success
        (record_failures (fun _ => none) "example.com" [10, 20, 30, 40, 50]) "example.com"
        "example.com"
      = some ⟨0, 50, none⟩ := by
  have h := c5_circuit_breaker_five_failures (fun _ => none) "example.com" 10 20 30 40 50 rfl
  exact ⟨h.2.1 60 (by decide), h.2.2.1 110 (by decide), h.2.2.2⟩

/-- C6: for a key holding a stored entry (created no later than `now`),
`get_with_tolerance` observes the entry iff `now - created_at <
effective_ttl` with `effective_ttl = tolerance ?? ttl`, and on a hit it
returns the stored response with `metadata.cached` set to true (the
stored entry itself is left unchanged: the function does not write). -/
theorem c6_get_with_tolerance_spec (svc : CacheService) (key : String) (tol : Option Nat)
    (now : Nat) (e : CacheEntry) (hkey : svc.cache key = some e)
    (_hmono : e.created_at ≤ now) :
    ((svc.get_with_tolerance key tol now).isSome ↔ now - e.created_at < tol.getD e.ttl)
    ∧ (∀ r, svc.get_with_tolerance key tol now = some r →
        r = { e.response with metadata := { e.response.metadata with cached := true } }) := by
  unfold CacheService.get_with_tolerance
  rw [hkey]
  by_cases h : now - e.created_at < tol.getD e.ttl
  · simp [h]
  · simp [h]

/-- Witness for C6: a concrete one-entry cache, read back 20 seconds
after creation against a 50-second TTL. -/
theorem c6_get_with_tolerance_spec_witness :
    ((c6WitnessSvc.get_with_tolerance "https://example.com:Markdown" none 120).isSome
      ↔ 120 - 100 < 50)
    ∧ (∀ r, c6WitnessSvc.get_with_tolerance "https://example.com:Markdown" none 120 = some r →
        r = { c6WitnessResp with
              metadata := { c6WitnessResp.metadata with cached := true } }) := by
  exact c6_get_with_tolerance_spec c6WitnessSvc "https://example.com:Markdown" none 120
    ⟨c6WitnessResp, 100, 50⟩ (by decide) (by decide)

/-- C10: with `no_cache = false`, the pipeline stores the response via
`set(key, response, cache_tolerance)`: the stored entry's TTL is the
caller's `cache_tolerance` when supplied and the cache's `default_ttl`
otherwise, and a later reader of that key supplying no tolerance
observes the entry exactly while `now2 - now < that TTL`. -/
theorem c10_store_uses_cache_tolerance_as_ttl (svc : CacheService) (options : CrawlerOptions)
    (response : LoadResponse) (now : Nat) (hnc : options.no_cache = false) :
    (load_handler_store svc options response now).cache (cache_key options)
      = some ⟨response, now, options.cache_tolerance.getD svc.default_ttl⟩
    ∧ (∀ now2, ((load_handler_store svc options response now).get_with_tolerance
          (cache_key options) none now2).isSome
        ↔ now2 - now < options.cache_tolerance.getD svc.default_ttl) := by
  have hstore : (load_handler_store svc options response now).cache (cache_key options)
      = some ⟨response, now, options.cache_tolerance.getD svc.default_ttl⟩ := by
    simp [load_handler_store, hnc, CacheService.set]
  refine ⟨hstore, ?_⟩
  intro now2
  unfold CacheService.get_with_tolerance
  rw [hstore]
  by_cases h : now2 - now < options.cache_tolerance.getD svc.default_ttl
  · simp [h]
  · simp [h]

/-- Witness for C10 at a concrete cache, options with
`cache_tolerance = some 7`, and a reader 5 seconds later. -/
theorem c10_store_uses_cache_tolerance_as_ttl_witness :
    let options : CrawlerOptions :=
      ⟨"https://example.com", .Markdown, none, none, none, none, none, none, none,
        false, false, false, some 7, false, false, false, false⟩
    let resp : LoadResponse :=
      ⟨"https://example.com", none, "hi", none, none, none, none, ⟨1, false⟩⟩
    let svc : CacheService := ⟨fun _ => none, 3600⟩
    (load_handler_store svc options resp 100).cache (cache_key options)
      = some ⟨resp, 100, 7⟩
    ∧ (((load_handler_store svc options resp 100).get_with_tolerance
          (cache_key options) none 105).isSome ↔ 105 - 100 < 7) := by
  have h := c10_store_uses_cache_tolerance_as_ttl
    ⟨fun _ => none, 3600⟩
    ⟨"https://example.com", .Markdown, none, none, none, none, none, none, none,
      false, false, false, some 7, false, false, false, false⟩
    ⟨"https://example.com", none, "hi", none, none, none, none, ⟨1, false⟩⟩
    100 rfl
  exact ⟨h.1, h.2 105⟩

/-- C3: the retry policy. (1) every run makes at most 3 attempts and
sleeps 500 ms exactly once before each attempt after the first; (2) a
non-connection error on the first attempt is returned immediately with
no retry; (3,4) a connection error triggers an invalidation and a
retried attempt, and a later non-connection error is still returned
immediately; (5) when all three attempts fail with connection errors the
result is the LAST such error, after three invalidations. -/
theorem c3_process_url_with_retry_policy (f : Nat → Except AppError α) :
    ((process_url_with_retry f).2.countP isAttemptEvent ≤ 3
      ∧ (process_url_with_retry f).2.countP isSleepEvent + 1
          = (process_url_with_retry f).2.countP isAttemptEvent)
    ∧ (∀ e, f 0 = .error e → is_connection_error e = false →
        process_url_with_retry f = (.error e, [.attempt 0]))
    ∧ (∀ e0 e1, f 0 = .error e0 → is_connection_error e0 = true →
        f 1 = .error e1 → is_connection_error e1 = false →
        process_url_with_retry f
          = (.error e1, [.attempt 0, .invalidate, .sleep 500, .attempt 1]))
    ∧ (∀ e0 e1 e2, f 0 = .error e0 → is_connection_error e0 = true →
        f 1 = .error e1 → is_connection_error e1 = true →
        f 2 = .error e2 → is_connection_error e2 = false →
        process_url_with_retry f
          = (.error e2, [.attempt 0, .invalidate, .sleep 500, .attempt 1,
              .invalidate, .sleep 500, .attempt 2]))
    ∧ (∀ e0 e1 e2, f 0 = .error e0 → is_connection_error e0 = true →
        f 1 = .error e1 → is_connection_error e1 = true →
        f 2 = .error e2 → is_connection_error e2 = true →
        process_url_with_retry f
          = (.error e2, [.attempt 0, .invalidate, .sleep 500, .attempt 1,
              .invalidate, .sleep 500, .attempt 2, .invalidate])) := by
  refine ⟨?_, ?_, ?_, ?_, ?_⟩
  · cases h0 : f 0 with
    | ok r =>
      simp only [process_url_with_retry, retryGo, h0, List.range_succ, MAX_REQUEST_RETRIES]
      decide
    | error e0 =>
      cases hc0 : is_connection_error e0 with
      | false =>
        simp only [process_url_with_retry, retryGo, h0, hc0, List.range_succ,
          MAX_REQUEST_RETRIES, Bool.false_eq_true, if_false]
        decide
      | true =>
        cases h1 : f 1 with
        | ok r =>
          simp [process_url_with_retry, retryGo, h0, hc0, h1, List.range_succ,
            MAX_REQUEST_RETRIES, isAttemptEvent, isSleepEvent]
        | error e1 =>
          cases hc1 : is_connection_error e1 with
          | false =>
            simp [process_url_with_retry, retryGo, h0, hc0, h1, hc1, List.range_succ,
              MAX_REQUEST_RETRIES, isAttemptEvent, isSleepEvent]
          | true =>
            cases h2 : f 2 with
            | ok r =>
              simp [process_url_with_retry, retryGo, h0, hc0, h1, hc1, h2, List.range_succ,
                MAX_REQUEST_RETRIES, isAttemptEvent, isSleepEvent]
            | error e2 =>
              cases hc2 : is_connection_error e2 with
              | false =>
                simp [process_url_with_retry, retryGo, h0, hc0, h1, hc1, h2, hc2,
                  List.range_succ, MAX_REQUEST_RETRIES, isAttemptEvent, isSleepEvent]
              | true =>
                simp [process_url_with_retry, retryGo, h0, hc0, h1, hc1, h2, hc2,
                  List.range_succ, MAX_REQUEST_RETRIES, isAttemptEvent, isSleepEvent]
  · intro e h0 hc0
    simp [process_url_with_retry, retryGo, h0, hc0, List.range_succ, MAX_REQUEST_RETRIES]
  · intro e0 e1 h0 hc0 h1 hc1
    simp [process_url_with_retry, retryGo, h0, hc0, h1, hc1, List.range_succ,
      MAX_REQUEST_RETRIES]
  · intro e0 e1 e2 h0 hc0 h1 hc1 h2 hc2
    simp [process_url_with_retry, retryGo, h0, hc0, h1, hc1, h2, hc2, List.range_succ,
      MAX_REQUEST_RETRIES]
  · intro e0 e1 e2 h0 hc0 h1 hc1 h2 hc2
    simp [process_url_with_retry, retryGo, h0, hc0, h1, hc1, h2, hc2, List.range_succ,
      MAX_REQUEST_RETRIES]

/-- Witness for C3: an oracle that fails every attempt with the
connection-classified message "connection reset"; the run returns that
error after exactly the claimed trace. -/
theorem c3_process_url_with_retry_policy_witness :
    process_url_with_retry
        (fun _ => (.error (.BrowserError "connection reset") : Except AppError LoadResponse))
      = (.error (.BrowserError "connection reset"),
          [.attempt 0, .invalidate, .sleep 500, .attempt 1,
            .invalidate, .sleep 500, .attempt 2, .invalidate]) := by
  exact (c3_process_url_with_retry_policy
      (fun _ => (.error (.BrowserError "connection reset") : Except AppError LoadResponse))).2.2.2.2
    (.BrowserError "connection reset") (.BrowserError "connection reset")
    (.BrowserError "connection reset") rfl (by decide) rfl (by decide) rfl (by decide)

/-- C2-counterexample semantics: with `browser_pool_size = 1`, caller 1
acquires and gets a page; because `get_page` releases its permit on
return, caller 2's acquire is immediately enabled (no suspension) while
caller 1 still holds its page, and after caller 2's `get_page` returns,
TWO callers hold pages although the pool has one slot. -/
theorem c2_permit_released_at_get_page_return :
    poolRun ⟨1, [], []⟩
        [.acquire 1, .getPageReturn 1, .acquire 2, .getPageReturn 2]
      = some ⟨1, [], [2, 1]⟩
    ∧ (poolRun ⟨1, [], []⟩
        [.acquire 1, .getPageReturn 1, .acquire 2, .getPageReturn 2]).map
          (fun s => s.holding.length) = some 2
    ∧ 1 < 2 := by
  refine ⟨by decide, by decide, by decide⟩

/-- C7-counterexample: page host is `a.com`; the anchor
`https://nota.com/x` does not start with `/` and its host `nota.com`
differs from `a.com`, yet the code marks it internal, because
`"https://nota.com/x"` contains `"a.com"` as a substring. -/
theorem c7_counterexample_contains_is_not_host_equality :
    extract_links [⟨"https://nota.com/x", "t"⟩] "https://a.com/"
      = [⟨"https://nota.com/x", some "t", true⟩]
    ∧ startsWithStr "https://nota.com/x" "/" = false
    ∧ (parseUrlModel "https://nota.com/x").bind (fun u => u.host_str) = some "nota.com"
    ∧ (parseUrlModel "https://a.com/").bind (fun u => u.host_str) = some "a.com"
    ∧ ("nota.com" : String) ≠ "a.com" := by
  refine ⟨by rfl, by decide, by rfl, by rfl, by decide⟩

/-- C7 (amended): each extracted link keeps its anchor's href;
`is_internal` is true iff the href starts with `/` or the page host `h`
exists and occurs in the href as a SUBSTRING (not: equals the href's
host); `text` is `None` iff the anchor's trimmed text is empty. -/
theorem c7_extract_links_substring_spec (anchors : List Anchor) (base_url : String) :
    List.Forall₂ (fun (l : LinkData) (a : Anchor) =>
        l.href = a.href
        ∧ (l.is_internal = true ↔
            (startsWithStr a.href "/" = true
              ∨ ∃ d, (parseUrlModel base_url).bind (fun u => u.host_str) = some d
                  ∧ strContains a.href d = true))
        ∧ (l.text = none ↔ rustTrim a.text = ""))
      (extract_links anchors base_url) anchors := by
  induction anchors with
  | nil => simp [extract_links]
  | cons a rest ih =>
    simp only [extract_links, List.map] at ih ⊢
    refine List.Forall₂.cons ?_ ih
    refine ⟨rfl, ?_, ?_⟩
    · cases hbd : (parseUrlModel base_url).bind (fun u => u.host_str) with
      | none => simp [link_of_anchor, hbd]
      | some d => simp [link_of_anchor, hbd]
    · by_cases ht : rustTrim a.text = ""
      · simp [link_of_anchor, ht]
      · simp [link_of_anchor, ht]

/-- C8: `tidy_markdown` is NOT idempotent. On `"a\n \n\nb"` the
newline-collapsing pass runs BEFORE the trailing-space pass, so removing
the ` ` of the middle line creates a fresh three-newline run that the
first application leaves behind and a second application collapses. -/
theorem c8_tidy_markdown_not_idempotent :
    tidyStr "a\n \n\nb" = "a\n\n\nb"
    ∧ tidyStr (tidyStr "a\n \n\nb") = "a\n\nb"
    ∧ tidyStr (tidyStr "a\n \n\nb") ≠ tidyStr "a\n \n\nb" := by
  refine ⟨by decide, by decide, by decide⟩

theorem keep_char_ascii_pointwise (c : Char) (h : c.toNat < 128) :
    amendedKeepChar c = claimKeepChar c := by
  have e1 : (decide (c.toNat = 0xAA)) = false := decide_eq_false (by omega)
  have e2 : (decide (c.toNat = 0xB5)) = false := decide_eq_false (by omega)
  have e3 : (decide (c.toNat = 0xBA)) = false := decide_eq_false (by omega)
  have e4 : (decide (0xC0 ≤ c.toNat)) = false := decide_eq_false (by omega)
  have e5 : (decide (0xD8 ≤ c.toNat)) = false := decide_eq_false (by omega)
  have e6 : (decide (0xF8 ≤ c.toNat)) = false := decide_eq_false (by omega)
  have e7 : (decide (c.toNat = 0xB2)) = false := decide_eq_false (by omega)
  have e8 : (decide (c.toNat = 0xB3)) = false := decide_eq_false (by omega)
  have e9 : (decide (c.toNat = 0xB9)) = false := decide_eq_false (by omega)
  have e10 : (decide (0xBC ≤ c.toNat)) = false := decide_eq_false (by omega)
  simp [amendedKeepChar, rustIsAlphanumeric, claimKeepChar, Char.isAlphanum, Char.isAlpha,
    e1, e2, e3, e4, e5, e6, e7, e8, e9, e10, Bool.or_assoc]

/-- C9-counterexample: the source filters with `char::is_alphanumeric`,
which is Unicode, so the reachable URL `https://x.com/café` (it
passes `validate_url`; `options.url` stays the raw request string)
yields the prefix `httpsxcomcafé` — the kept U+00E9 lies outside
the claim's set `[A-Za-z0-9_-]`, whose filter would give `httpsxcomcaf`,
so the claimed path format fails at this input. -/
theorem c9_counterexample_unicode_alphanumerics_kept :
    save_screenshot_path "u0" "https://x.com/café"
      = "/screenshots/httpsxcomcafé_u0.png"
    ∧ String.mk (("https://x.com/café".toList.filter claimKeepChar).take 50)
        = "httpsxcomcaf"
    ∧ save_screenshot_path "u0" "https://x.com/café"
        ≠ "/screenshots/"
          ++ String.mk (("https://x.com/café".toList.filter claimKeepChar).take 50)
          ++ "_" ++ "u0" ++ ".png" := by
  refine ⟨by decide, by decide, by decide⟩

/-- C9 (amended): for every URL and UUID, the saved screenshot path is
`/screenshots/{prefix}_{uuid}.png` where `prefix` keeps exactly the
characters that are Unicode alphanumerics (Rust
`char::is_alphanumeric`), `-` or `_`, truncated to the first 50 kept
characters; on ASCII URLs this coincides with the original
`[A-Za-z0-9_-]` set. -/
theorem c9_screenshot_path_unicode_format (url uuid : String) :
    save_screenshot_path uuid url
      = "/screenshots/" ++ String.mk ((url.toList.filter amendedKeepChar).take 50)
        ++ "_" ++ uuid ++ ".png"
    ∧ ((url.toList.filter amendedKeepChar).take 50).length ≤ 50
    ∧ ((∀ c ∈ url.toList, c.toNat < 128) →
        url.toList.filter amendedKeepChar = url.toList.filter claimKeepChar) := by
  refine ⟨?_, ?_, ?_⟩
  · simp only [save_screenshot_path, generate_filename]
    rw [show (fun c => rustIsAlphanumeric c || c == '-' || c == '_') = amendedKeepChar from
      funext (fun c => rfl)]
    simp [String.append_assoc]
  · simp [List.length_take]
  · intro hascii
    exact List.filter_congr (fun c hc => keep_char_ascii_pointwise c (hascii c hc))

/-- Witness for C9 at a concrete ASCII URL and UUID, discharging the
ASCII hypothesis of the coincidence conjunct. -/
theorem c9_screenshot_path_unicode_format_witness :
    save_screenshot_path "123e4567" "https://example.com/a_b-c!"
      = "/screenshots/"
        ++ String.mk (("https://example.com/a_b-c!".toList.filter amendedKeepChar).take 50)
        ++ "_" ++ "123e4567" ++ ".png"
    ∧ "https://example.com/a_b-c!".toList.filter amendedKeepChar
        = "https://example.com/a_b-c!".toList.filter claimKeepChar := by
  have h := c9_screenshot_path_unicode_format "https://example.com/a_b-c!" "123e4567"
  exact ⟨h.1, h.2.2 (by decide)⟩

/-- C1: the claim says `validate_url "https://[::1]/"` returns a
`BlockedUrl` error. It does not: the url crate renders an IPv6 loopback
host as the bracketed string `"[::1]"`, which matches neither the
blocklist entry `"::1"` (`is_blocked_host` is false) nor an IP address
(`IpAddr::from_str` rejects brackets, so `is_localhost_ip` is false), so
validation falls through to the TLD check and returns `InvalidUrl
"URL must have a valid TLD"` instead. -/
theorem c1_ipv6_loopback_gets_invalid_url_not_blocked :
    validate_url "https://[::1]/" = .error (.InvalidUrl "URL must have a valid TLD")
    ∧ (∀ m, validate_url "https://[::1]/" ≠ .error (.BlockedUrl m))
    ∧ parseUrlModel "https://[::1]/" = some ⟨"https", some "[::1]"⟩
    ∧ is_blocked_host "[::1]" = false
    ∧ is_localhost_ip "[::1]" = false
    ∧ parseIpAddr "[::1]" = none := by
  refine ⟨by rfl, ?_, by rfl, by decide, by decide, by decide⟩
  intro m h
  have : validate_url "https://[::1]/" = .error (.InvalidUrl "URL must have a valid TLD") := by rfl
  rw [this] at h
  exact absurd (Except.error.inj h) (by intro hc; cases hc)

/-- C4: `is_connection_error` is a pure function returning true exactly on
`BrowserError` values whose message contains, case-insensitively, one of
the claimed classifier substrings; every other error kind yields false;
in particular "Ws(AlreadyClosed)" is classified as a connection error and
"element not found" is not. -/
theorem c4_is_connection_error_classifier :
    (∀ e : AppError, is_connection_error e = true ↔
      ∃ msg, e = .BrowserError msg ∧
        (claim_connection_patterns.any
          (fun pattern => strContains (strToLower msg) (strToLower pattern))) = true)
    ∧ is_connection_error (.BrowserError "Ws(AlreadyClosed)") = true
    ∧ is_connection_error (.BrowserError "element not found") = false := by
  refine ⟨?_, by decide, by decide⟩
  intro e
  cases e <;>
    simp only [is_connection_error, is_connection_error_str, patterns_agree,
      AppError.BrowserError.injEq, exists_eq_left', reduceCtorEq, false_and,
      exists_false, iff_false, Bool.false_eq_true, not_false_eq_true]

end WebLoader

